import Mathlib

/-!
Verification of the port-forwarding core of `lxc-go-cli` (`cmd/root.go`,
`internal/helpers/port.go`).

Strings are modelled as `List Char` (`Str`); Go's `strings.Split` on a
single-character separator is `splitOnChar`, `strconv.Atoi` is `atoi?`,
`strings.ToLower`/`ToUpper` are the ASCII maps `strToLower`/`strToUpper`
(all inputs reaching them in the verified paths are ASCII).  The external
collaborators (`ContainerPortManager`, the socket bind inside
`IsPortAvailable`, `RunLXCCommand`) are an oracle record, and the
orchestrator is given as a pure function that also returns the ordered
log of external calls it performed.
-/

/-- Go strings, modelled as lists of characters. -/
abbrev Str := List Char

/-- Embed a Lean string literal as a `Str`. -/
def str (s : String) : Str := s.data

/-- Model of Go `strings.Split(s, sep)` for a one-character separator.
`splitOnChar sep "" = [""]`, as in Go. -/
def splitOnChar (sep : Char) : Str → List Str
  | [] => [[]]
  | c :: cs =>
    match splitOnChar sep cs with
    | [] => [[]]
    | p :: ps => if c = sep then [] :: p :: ps else (c :: p) :: ps

/-- Join a list of tokens with a one-character separator (inverse of
`splitOnChar`). -/
def joinSep (sep : Char) : List Str → Str
  | [] => []
  | [p] => p
  | p :: ps => p ++ sep :: joinSep sep ps

theorem splitOnChar_ne_nil (sep : Char) (s : Str) : splitOnChar sep s ≠ [] := by
  cases s with
  | nil => simp [splitOnChar]
  | cons c cs =>
    simp only [splitOnChar]
    cases h : splitOnChar sep cs with
    | nil => simp
    | cons p ps =>
      by_cases hc : c = sep <;> simp [hc]

theorem splitOnChar_append (sep : Char) (a b : Str) :
    splitOnChar sep (a ++ sep :: b) = splitOnChar sep a ++ splitOnChar sep b := by
  induction a with
  | nil =>
    simp only [List.nil_append, splitOnChar]
    cases h : splitOnChar sep b with
    | nil => exact absurd h (splitOnChar_ne_nil sep b)
    | cons p ps => simp
  | cons c cs ih =>
    simp only [List.cons_append, splitOnChar, ih]
    cases h : splitOnChar sep cs with
    | nil => exact absurd h (splitOnChar_ne_nil sep cs)
    | cons p ps =>
      by_cases hc : c = sep <;> simp [ih, h, hc]

theorem splitOnChar_of_not_mem {sep : Char} {s : Str} (h : sep ∉ s) :
    splitOnChar sep s = [s] := by
  induction s with
  | nil => rfl
  | cons c cs ih =>
    have hc : c ≠ sep := fun hcs => h (hcs ▸ List.mem_cons_self c cs)
    have hcs : sep ∉ cs := fun hmem => h (List.mem_cons_of_mem c hmem)
    simp only [splitOnChar, ih hcs]
    simp [hc]

theorem joinSep_splitOnChar (sep : Char) (s : Str) :
    joinSep sep (splitOnChar sep s) = s := by
  induction s with
  | nil => rfl
  | cons c cs ih =>
    simp only [splitOnChar]
    cases h : splitOnChar sep cs with
    | nil => exact absurd h (splitOnChar_ne_nil sep cs)
    | cons p ps =>
      rw [h] at ih
      by_cases hc : c = sep
      · subst hc
        simpa [joinSep] using ih
      · cases ps with
        | nil => simpa [joinSep, hc] using ih
        | cons q qs => simpa [joinSep, hc] using ih

/-- Model of Go `strconv.Atoi` digit parsing: a nonempty all-digit string. -/
def parseDigits : Str → Option Nat
  | [] => none
  | s => if s.all Char.isDigit then
           some (s.foldl (fun acc c => acc * 10 + (c.toNat - '0'.toNat)) 0)
         else none

/-- Model of Go `strconv.Atoi`: optional sign followed by at least one
digit (the `int64` range error is not modelled; all inputs of interest
are small). -/
def atoi? : Str → Option Int
  | [] => none
  | '+' :: rest => (parseDigits rest).map Int.ofNat
  | '-' :: rest => (parseDigits rest).map (fun n => -(n : Int))
  | s => (parseDigits s).map Int.ofNat

/-- ASCII lower-casing of one character (Go `strings.ToLower`, restricted
to the ASCII range that all modelled inputs use). -/
def charToLower (c : Char) : Char :=
  if 'A' ≤ c ∧ c ≤ 'Z' then Char.ofNat (c.toNat + 32) else c

/-- ASCII upper-casing of one character (Go `strings.ToUpper`). -/
def charToUpper (c : Char) : Char :=
  if 'a' ≤ c ∧ c ≤ 'z' then Char.ofNat (c.toNat - 32) else c

def strToLower (s : Str) : Str := s.map charToLower

def strToUpper (s : Str) : Str := s.map charToUpper

/-- `hay` contains `needle` as a contiguous substring
(Go `strings.Contains`). -/
def containsStr (needle hay : Str) : Bool :=
  hay.tails.any fun t => needle.isPrefixOf t

theorem isPrefixOf_append_self (a b : Str) : a.isPrefixOf (a ++ b) = true := by
  rw [List.isPrefixOf_iff_prefix]
  exact ⟨b, rfl⟩

theorem containsStr_append (needle a b : Str) :
    containsStr needle (a ++ needle ++ b) = true := by
  induction a with
  | nil =>
    simp only [List.nil_append, containsStr]
    cases needle with
    | nil => exact List.any_eq_true.mpr ⟨b, (List.mem_tails b b).mpr (List.suffix_refl b), by simp [List.isPrefixOf]⟩
    | cons c cs =>
      apply List.any_eq_true.mpr
      refine ⟨(c :: cs) ++ b, ?_, isPrefixOf_append_self _ _⟩
      cases hb : ((c :: cs) ++ b) with
      | nil => simp at hb
      | cons d ds => rw [← hb]; exact List.mem_of_mem_head? (by simp [List.tails])
  | cons c cs ih =>
    simp only [containsStr, List.cons_append, List.tails]
    apply List.any_eq_true.mpr
    have := List.any_eq_true.mp ih
    obtain ⟨t, ht, hp⟩ := this
    exact ⟨t, List.mem_cons_of_mem _ ht, hp⟩

/-! ### Data model (`cmd/root.go`) -/

/-- `Device` from `cmd/root.go`: one entry of the `devices` map of
`lxc config show` output (`type`, `connect`, `listen`). -/
structure Device where
  type    : Str
  connect : Str
  listen  : Str
deriving DecidableEq, Repr

/-- `PortMapping` from `cmd/root.go`. -/
structure PortMapping where
  DeviceName    : Str
  Protocol      : Str
  HostPort      : Str
  ContainerPort : Str
  HostIP        : Str
  ContainerIP   : Str
deriving DecidableEq, Repr

/-- The device name built in `configurePortForwardingForProtocol`:
`fmt.Sprintf("%s-%s-%s-%s", containerName, hostPort, containerPort, protocol)`. -/
def encodeDeviceName (containerName hostPort containerPort protocol : Str) : Str :=
  containerName ++ '-' :: (hostPort ++ '-' :: (containerPort ++ '-' :: protocol))

/-- The address-field recovery of `parsePortMapping` (done once for
`connect`, once for `listen` in the source): start from `0.0.0.0`, and
take the middle segment only when the field is nonempty and splits on
`:` into exactly three segments. -/
def parseIPField (field : Str) : Str :=
  if field ≠ [] then
    let fieldParts := splitOnChar ':' field
    if fieldParts.length = 3 then fieldParts.getD 1 [] else str "0.0.0.0"
  else str "0.0.0.0"

/-- `parsePortMapping` from `cmd/root.go`: split the device name on `-`,
require at least 4 tokens, take the last three as protocol / container
port / host port; recover the IPs from the `connect`/`listen` attributes,
defaulting to `0.0.0.0` when a field is empty or not `proto:ip:port`. -/
def parsePortMapping (deviceName : Str) (device : Device) : Except Str PortMapping :=
  let parts := splitOnChar '-' deviceName
  if parts.length < 4 then
    .error (str "invalid device name format: " ++ deviceName)
  else
    let protocol := parts.getD (parts.length - 1) []
    let containerPort := parts.getD (parts.length - 2) []
    let hostPort := parts.getD (parts.length - 3) []
    .ok { DeviceName := deviceName
          Protocol := strToUpper protocol
          HostPort := hostPort
          ContainerPort := containerPort
          HostIP := parseIPField device.connect
          ContainerIP := parseIPField device.listen }

/-- The `\d+-\d+-(tcp|udp)$` part of the `isPortDevice` regex: the
remainder splits on `-` into exactly three tokens, two nonempty digit
runs and a `tcp`/`udp` protocol. -/
def tailMatchesPortSuffix (s : Str) : Bool :=
  match splitOnChar '-' s with
  | [d1, d2, pr] =>
    !d1.isEmpty && d1.all Char.isDigit &&
    (!d2.isEmpty && d2.all Char.isDigit) &&
    (pr = str "tcp" || pr = str "udp")
  | _ => false

/-- `isPortDevice` from `cmd/root.go`: functional model of the regex
match `^{QuoteMeta containerName}-\d+-\d+-(tcp|udp)$`.  The anchored
literal part is a fixed-length front segment, so the match is equivalent
to stripping `containerName ++ "-"` and checking that the remainder
matches `\d+-\d+-(tcp|udp)`. -/
def isPortDevice (deviceName containerName : Str) : Bool :=
  (containerName ++ ['-']).isPrefixOf deviceName &&
    tailMatchesPortSuffix (deviceName.drop (containerName.length + 1))

/-- The regex pattern of `isPortDevice`, written as the spec reads it:
the device name decomposes as a literal container-name segment followed
by `-digits-digits-` and a `tcp`/`udp` suffix. -/
def MatchesPortPattern (deviceName containerName : Str) : Prop :=
  ∃ d1 d2 pr : Str,
    d1 ≠ [] ∧ (∀ c ∈ d1, c.isDigit = true) ∧
    d2 ≠ [] ∧ (∀ c ∈ d2, c.isDigit = true) ∧
    (pr = str "tcp" ∨ pr = str "udp") ∧
    deviceName = containerName ++ '-' :: (d1 ++ '-' :: (d2 ++ '-' :: pr))

/-- The device filter of `parsePortMappingsFromConfig`: proxy type and a
name matching the container's port-device pattern. -/
def isMatchingDevice (containerName : Str) (nd : Str × Device) : Bool :=
  nd.2.type == str "proxy" && isPortDevice nd.1 containerName

/-- `parsePortMappingsFromConfig` from `cmd/root.go`, after the YAML
document has been decoded into its `devices` map.  The map is modelled
as the association list in iteration order (Go map iteration order is
unspecified); devices that fail `parsePortMapping` are skipped. -/
def parsePortMappingsFromConfig (devices : List (Str × Device)) (containerName : Str) :
    List PortMapping :=
  match devices with
  | [] => []
  | nd :: rest =>
    if isMatchingDevice containerName nd then
      match parsePortMapping nd.1 nd.2 with
      | .ok m => m :: parsePortMappingsFromConfig rest containerName
      | .error _ => parsePortMappingsFromConfig rest containerName
    else
      parsePortMappingsFromConfig rest containerName

/-- Go `fmt` left-justified padding `%-ws`. -/
def padRight (s : Str) (w : Nat) : Str := s ++ List.replicate (w - s.length) ' '

/-- The header line written by `formatPortMappings` (verbatim from the
source, including the column padding). -/
def portTableHeader : Str :=
  str "PROTOCOL  HOST PORT  CONTAINER PORT  HOST IP      CONTAINER IP  DEVICE NAME\n"

/-- The separator line written by `formatPortMappings`. -/
def portTableSeparator : Str :=
  str "--------  ---------  --------------  -----------  ------------  -----------\n"

/-- One row of the table:
`fmt.Sprintf("%-8s  %-9s  %-14s  %-11s  %-12s  %s\n", ...)`. -/
def formatPortMappingRow (m : PortMapping) : Str :=
  padRight m.Protocol 8 ++ str "  " ++ padRight m.HostPort 9 ++ str "  " ++
  padRight m.ContainerPort 14 ++ str "  " ++ padRight m.HostIP 11 ++ str "  " ++
  padRight m.ContainerIP 12 ++ str "  " ++ m.DeviceName ++ ['\n']

/-- `formatPortMappings` from `cmd/root.go`. -/
def formatPortMappings (mappings : List PortMapping) : Str :=
  if mappings.isEmpty then []
  else portTableHeader ++ portTableSeparator ++ (mappings.map formatPortMappingRow).flatten

/-! ### External collaborators and the orchestrator (`cmd/root.go`,
`internal/helpers/port.go`) -/

/-- The external world as seen by the orchestrator: the container
existence oracle, the outcome of the socket-bind attempt inside
`helpers.IsPortAvailable` (per port and protocol), and the outcome of
`RunLXCCommand` (`none` = success, `some e` = the error text). -/
structure ManagerOracle where
  containerExists : Str → Bool
  portAvailable   : Int → Str → Bool
  runLXC          : List Str → Option Str

/-- One external call made by the orchestrator, in order. -/
inductive Event where
  | existsCheck : Str → Event
  | probe       : Int → Str → Event
  | runCmd      : List Str → Event
deriving DecidableEq, Repr

/-- `helpers.IsPortAvailable`: ports outside 1–65535 and protocols other
than `tcp`/`udp` (after lower-casing) report unavailable without a bind;
otherwise the bind outcome decides. -/
def IsPortAvailable (avail : Int → Str → Bool) (port : Int) (protocol : Str) : Bool :=
  if port < 1 ∨ port > 65535 then false
  else
    let protocol := strToLower protocol
    if protocol = str "tcp" then avail port (str "tcp")
    else if protocol = str "udp" then avail port (str "udp")
    else false

/-- `helpers.FormatPortConflictError`, verbatim template. -/
def formatPortConflictError (hostPort protocol : Str) : Str :=
  str "host port " ++ hostPort ++ str " (" ++ protocol ++
  str ") is already in use\n\nSuggestions:\n  • Use a different host port: lxc-go-cli port add <container> <other-port> <container-port> " ++
  protocol ++
  str "\n  • Check what's using the port: ss -tuln | grep :" ++ hostPort ++
  str "\n  • Force creation anyway: lxc-go-cli port add <container> " ++ hostPort ++
  str " <container-port> " ++ protocol ++
  str " --force\n\nNote: Forced creation may result in non-functional port mapping"

/-- `validatePortForwardingArgs` from `cmd/root.go`. -/
def validatePortForwardingArgs (containerName hostPort containerPort protocol : Str) :
    Except Str Unit :=
  if containerName = [] then .error (str "container name is required")
  else if hostPort = [] then .error (str "host port is required")
  else
    match atoi? hostPort with
    | none => .error (str "invalid host port '" ++ hostPort ++ str "': must be a number")
    | some hostPortNum =>
      if hostPortNum < 1 ∨ hostPortNum > 65535 then
        .error (str "invalid host port '" ++ hostPort ++ str "': must be between 1 and 65535")
      else if containerPort = [] then .error (str "container port is required")
      else
        match atoi? containerPort with
        | none =>
          .error (str "invalid container port '" ++ containerPort ++ str "': must be a number")
        | some containerPortNum =>
          if containerPortNum < 1 ∨ containerPortNum > 65535 then
            .error (str "invalid container port '" ++ containerPort ++
                    str "': must be between 1 and 65535")
          else
            let protocol := if protocol = [] then str "tcp" else protocol
            let protocol := strToLower protocol
            if protocol = str "tcp" ∨ protocol = str "udp" ∨ protocol = str "both" then
              .ok ()
            else
              .error (str "invalid protocol '" ++ protocol ++
                      str "': must be 'tcp', 'udp', or 'both'")

/-- The device-creation command line issued via `RunLXCCommand`:
`lxc config device add <container> <deviceName> proxy connect=<addr> listen=<addr>`. -/
def creationCmd (containerName hostPort containerPort protocol : Str) : List Str :=
  [str "lxc", str "config", str "device", str "add", containerName,
   encodeDeviceName containerName hostPort containerPort protocol,
   str "proxy",
   str "connect=" ++ (protocol ++ str ":0.0.0.0:" ++ hostPort),
   str "listen=" ++ (protocol ++ str ":0.0.0.0:" ++ containerPort)]

/-- The device-creation step of `configurePortForwardingForProtocol`:
issue the external command and wrap its failure with protocol/port/
container context. -/
def createDevice (m : ManagerOracle) (containerName hostPort containerPort protocol : Str) :
    Except Str Unit × List Event :=
  let cmd := creationCmd containerName hostPort containerPort protocol
  match m.runLXC cmd with
  | none => (.ok (), [.runCmd cmd])
  | some e =>
    (.error (str "failed to configure " ++ protocol ++ str " port forwarding 0.0.0.0:" ++
             hostPort ++ str " -> " ++ containerName ++ str ":" ++ containerPort ++
             str ": " ++ e),
     [.runCmd cmd])

/-- `configurePortForwardingForProtocol` from `cmd/root.go`: unless
forced, re-parse the host port and consult the Port Prober (a conflict
aborts with the structured template before any command); then issue the
creation command.  (The unreachable-after-validation `Atoi` failure
branch returns the wrapped `strconv` error.) -/
def configurePortForwardingForProtocol (m : ManagerOracle)
    (containerName hostPort containerPort protocol : Str) (force : Bool) :
    Except Str Unit × List Event :=
  if force then createDevice m containerName hostPort containerPort protocol
  else
    match atoi? hostPort with
    | none => (.error (str "invalid host port '" ++ hostPort ++ str "': invalid syntax"), [])
    | some hostPortNum =>
      if IsPortAvailable m.portAvailable hostPortNum protocol then
        let t := createDevice m containerName hostPort containerPort protocol
        (t.1, .probe hostPortNum protocol :: t.2)
      else
        (.error (formatPortConflictError hostPort protocol),
         [.probe hostPortNum protocol])

/-- `configurePortForwarding` from `cmd/root.go`: validate, check
existence, normalize the protocol, then dispatch — `both` runs the TCP
leg first and runs the UDP leg only if the TCP leg succeeded. -/
def configurePortForwarding (m : ManagerOracle)
    (containerName hostPort containerPort protocol : Str) (force : Bool) :
    Except Str Unit × List Event :=
  match validatePortForwardingArgs containerName hostPort containerPort protocol with
  | .error e => (.error e, [])
  | .ok () =>
    if m.containerExists containerName then
      let protocol := if protocol = [] then str "tcp" else protocol
      let protocol := strToLower protocol
      if protocol = str "tcp" then
        let t :=
          configurePortForwardingForProtocol m containerName hostPort containerPort
            (str "tcp") force
        (t.1, .existsCheck containerName :: t.2)
      else if protocol = str "udp" then
        let u :=
          configurePortForwardingForProtocol m containerName hostPort containerPort
            (str "udp") force
        (u.1, .existsCheck containerName :: u.2)
      else if protocol = str "both" then
        let t :=
          configurePortForwardingForProtocol m containerName hostPort containerPort
            (str "tcp") force
        match t.1 with
        | .error e => (.error e, .existsCheck containerName :: t.2)
        | .ok () =>
          let u :=
            configurePortForwardingForProtocol m containerName hostPort containerPort
              (str "udp") force
          (u.1, .existsCheck containerName :: (t.2 ++ u.2))
      else
        (.error (str "unsupported protocol: " ++ protocol),
         [.existsCheck containerName])
    else
      (.error (str "container '" ++ containerName ++ str "' does not exist"),
       [.existsCheck containerName])

/-- Decimal digit to character. -/
def digitChar (d : Nat) : Char := Char.ofNat ('0'.toNat + d)

/-- Fuel-driven decimal printing, accumulator style. -/
def natToStrGo (fuel n : Nat) (acc : Str) : Str :=
  match fuel with
  | 0 => acc
  | fuel + 1 =>
    if n < 10 then digitChar n :: acc
    else natToStrGo fuel (n / 10) (digitChar (n % 10) :: acc)

/-- Decimal representation of a natural number (Go `fmt` `%s` of a port
passed as its decimal string). -/
def natToStr (n : Nat) : Str := natToStrGo (n + 1) n []

/-- Is the result of an `Except` computation an error? -/
def isErrE {α : Type} : Except Str α → Bool
  | .error _ => true
  | .ok _ => false

/-- Forget the error of an `Except` computation. -/
def toOptionE {α : Type} : Except Str α → Option α
  | .error _ => none
  | .ok a => some a

/-- The events of a log that are external command executions. -/
def runEvents (evs : List Event) : List Event :=
  evs.filter fun ev => match ev with | .runCmd _ => true | _ => false

/-! ### Lemmas about the codec -/

theorem digitChar_isDigit : ∀ d : Nat, d < 10 → (digitChar d).isDigit = true := by decide

theorem natToStrGo_digits (fuel : Nat) : ∀ (n : Nat) (acc : Str),
    (∀ c ∈ acc, c.isDigit = true) → ∀ c ∈ natToStrGo fuel n acc, c.isDigit = true := by
  induction fuel with
  | zero => intro n acc hacc c hc; exact hacc c hc
  | succ fuel ih =>
    intro n acc hacc c hc
    simp only [natToStrGo] at hc
    by_cases hn : n < 10
    · rw [if_pos hn] at hc
      rcases List.mem_cons.mp hc with h | h
      · exact h ▸ digitChar_isDigit n hn
      · exact hacc c h
    · rw [if_neg hn] at hc
      refine ih (n / 10) _ ?_ c hc
      intro e he
      rcases List.mem_cons.mp he with h | h
      · exact h ▸ digitChar_isDigit _ (Nat.mod_lt n (by norm_num))
      · exact hacc e h

theorem natToStr_digits (n : Nat) : ∀ c ∈ natToStr n, c.isDigit = true :=
  natToStrGo_digits (n + 1) n [] (by intro c hc; cases hc)

theorem natToStrGo_ne_nil : ∀ (fuel n : Nat) (acc : Str), natToStrGo (fuel + 1) n acc ≠ []
  | fuel, n, acc => by
    simp only [natToStrGo]
    by_cases hn : n < 10
    · simp [hn]
    · rw [if_neg hn]
      cases fuel with
      | zero => simp [natToStrGo]
      | succ f => exact natToStrGo_ne_nil f (n / 10) _

theorem natToStr_ne_nil (n : Nat) : natToStr n ≠ [] := natToStrGo_ne_nil n n []

theorem not_dash_mem_of_digits {s : Str} (h : ∀ c ∈ s, c.isDigit = true) : '-' ∉ s :=
  fun hmem => by have := h '-' hmem; exact absurd this (by decide)

theorem getD_append_length_add {α : Type} (xs ys : List α) (n : Nat) (d : α) :
    (xs ++ ys).getD (xs.length + n) d = ys.getD n d := by
  induction xs with
  | nil => simp
  | cons x xs ih =>
    simp only [List.cons_append, List.length_cons]
    rw [Nat.succ_add, List.getD_cons_succ]
    exact ih

theorem splitOnChar_encode (c h p pr : Str) (hh : '-' ∉ h) (hp : '-' ∉ p)
    (hpr : '-' ∉ pr) :
    splitOnChar '-' (encodeDeviceName c h p pr) = splitOnChar '-' c ++ [h, p, pr] := by
  unfold encodeDeviceName
  rw [splitOnChar_append, splitOnChar_append, splitOnChar_append,
      splitOnChar_of_not_mem hh, splitOnChar_of_not_mem hp, splitOnChar_of_not_mem hpr]
  simp

theorem parsePortMapping_of_split {dn : Str} (device : Device) {xs : List Str}
    {a b c : Str} (hs : splitOnChar '-' dn = xs ++ [a, b, c]) (hxs : 1 ≤ xs.length) :
    parsePortMapping dn device =
      .ok { DeviceName := dn, Protocol := strToUpper c, HostPort := a,
            ContainerPort := b, HostIP := parseIPField device.connect,
            ContainerIP := parseIPField device.listen } := by
  have hlen : (splitOnChar '-' dn).length = xs.length + 3 := by rw [hs]; simp
  have h4 : ¬ ((splitOnChar '-' dn).length < 4) := by omega
  have e1 : (splitOnChar '-' dn).length - 1 = xs.length + 2 := by omega
  have e2 : (splitOnChar '-' dn).length - 2 = xs.length + 1 := by omega
  have e3 : (splitOnChar '-' dn).length - 3 = xs.length + 0 := by omega
  unfold parsePortMapping
  rw [if_neg h4, e1, e2, e3, hs, getD_append_length_add, getD_append_length_add,
      getD_append_length_add]
  rfl

/-! ### Claim C1: codec round-trip -/

/-- C1: Round-trip law of the Mapping Codec.  For every non-empty
`containerName`, host and container ports in 1..65535 and protocol in
{tcp, udp}, `parsePortMapping` applied to the encoded device name (with
any device attributes) succeeds and recovers exactly the original host
port, container port and protocol — the ports verbatim as the last-third
and last-second `-`-separated tokens, the protocol as the last token
(stored in its canonical upper-case display form, whose lower-casing is
the original) — independent of the content of `containerName`. -/
theorem mappingCodec_roundTrip (containerName : Str) (hostPort containerPort : Nat)
    (protocol : Str) (device : Device)
    (hc : containerName ≠ [])
    (hh1 : 1 ≤ hostPort) (hh2 : hostPort ≤ 65535)
    (hp1 : 1 ≤ containerPort) (hp2 : containerPort ≤ 65535)
    (hpr : protocol = str "tcp" ∨ protocol = str "udp") :
    ∃ m : PortMapping,
      parsePortMapping
        (encodeDeviceName containerName (natToStr hostPort) (natToStr containerPort) protocol)
        device = .ok m ∧
      m.HostPort = natToStr hostPort ∧ m.ContainerPort = natToStr containerPort ∧
      m.Protocol = strToUpper protocol ∧ strToLower m.Protocol = protocol := by
  have hdashH : '-' ∉ natToStr hostPort := not_dash_mem_of_digits (natToStr_digits _)
  have hdashP : '-' ∉ natToStr containerPort := not_dash_mem_of_digits (natToStr_digits _)
  have hdashPr : '-' ∉ protocol := by rcases hpr with h | h <;> subst h <;> decide
  have hs := splitOnChar_encode containerName _ _ _ hdashH hdashP hdashPr
  have hxs : 1 ≤ (splitOnChar '-' containerName).length :=
    List.length_pos.mpr (splitOnChar_ne_nil '-' containerName)
  refine ⟨_, parsePortMapping_of_split device hs hxs, rfl, rfl, rfl, ?_⟩
  rcases hpr with h | h <;> subst h
  · show strToLower (strToUpper (str "tcp")) = str "tcp"
    decide
  · show strToLower (strToUpper (str "udp")) = str "udp"
    decide

/-- Witness for C1 at `("web", 8080, 80, tcp)`. -/
theorem mappingCodec_roundTrip_witness :
    ∃ m : PortMapping,
      parsePortMapping
        (encodeDeviceName (str "web") (natToStr 8080) (natToStr 80) (str "tcp"))
        ⟨str "proxy", str "tcp:0.0.0.0:8080", str "tcp:0.0.0.0:80"⟩ = .ok m ∧
      m.HostPort = natToStr 8080 ∧ m.ContainerPort = natToStr 80 ∧
      m.Protocol = strToUpper (str "tcp") ∧ strToLower m.Protocol = str "tcp" :=
  mappingCodec_roundTrip (str "web") 8080 80 (str "tcp")
    ⟨str "proxy", str "tcp:0.0.0.0:8080", str "tcp:0.0.0.0:80"⟩
    (by decide) (by decide) (by decide) (by decide) (by decide) (Or.inl rfl)

/-! ### Claim C7: device-name filter semantics -/

theorem tailMatchesPortSuffix_iff (s : Str) :
    tailMatchesPortSuffix s = true ↔
      ∃ d1 d2 pr : Str, splitOnChar '-' s = [d1, d2, pr] ∧
        d1 ≠ [] ∧ (∀ c ∈ d1, c.isDigit = true) ∧
        d2 ≠ [] ∧ (∀ c ∈ d2, c.isDigit = true) ∧
        (pr = str "tcp" ∨ pr = str "udp") := by
  constructor
  · intro ht
    unfold tailMatchesPortSuffix at ht
    rcases hsp : splitOnChar '-' s with _ | ⟨d1, _ | ⟨d2, _ | ⟨pr, _ | ⟨x, xs⟩⟩⟩⟩ <;>
      rw [hsp] at ht <;> simp at ht
    refine ⟨d1, d2, pr, rfl, ?_, ?_, ?_, ?_, ?_⟩ <;> tauto
  · rintro ⟨d1, d2, pr, hsp, h1, h2, h3, h4, h5⟩
    unfold tailMatchesPortSuffix
    rw [hsp]
    rcases h5 with h | h <;> subst h <;> simp [h1, h3] <;> exact ⟨h2, h4⟩

theorem isPortDevice_iff (deviceName containerName : Str) :
    isPortDevice deviceName containerName = true ↔
      MatchesPortPattern deviceName containerName := by
  constructor
  · intro h
    unfold isPortDevice at h
    rw [Bool.and_eq_true] at h
    obtain ⟨hpre, htail⟩ := h
    rw [List.isPrefixOf_iff_prefix] at hpre
    obtain ⟨t, ht⟩ := hpre
    have hdrop : deviceName.drop (containerName.length + 1) = t := by
      rw [← ht]
      have hl : (containerName ++ ['-']).length = containerName.length + 1 := by simp
      rw [← hl, List.drop_left]
    rw [hdrop] at htail
    obtain ⟨d1, d2, pr, hsp, h1, h2, h3, h4, h5⟩ := (tailMatchesPortSuffix_iff t).mp htail
    refine ⟨d1, d2, pr, h1, h2, h3, h4, h5, ?_⟩
    have hjoin := joinSep_splitOnChar '-' t
    rw [hsp] at hjoin
    rw [← ht, ← hjoin]
    simp [joinSep]
  · rintro ⟨d1, d2, pr, h1, h2, h3, h4, h5, hdec⟩
    have hprd : '-' ∉ pr := by rcases h5 with h | h <;> subst h <;> decide
    have hX : deviceName =
        (containerName ++ ['-']) ++ (d1 ++ '-' :: (d2 ++ '-' :: pr)) := by
      rw [hdec]; simp
    unfold isPortDevice
    rw [Bool.and_eq_true]
    constructor
    · rw [hX]; exact isPrefixOf_append_self _ _
    · have hdrop : deviceName.drop (containerName.length + 1) =
          d1 ++ '-' :: (d2 ++ '-' :: pr) := by
        rw [hX]
        have hl : (containerName ++ ['-']).length = containerName.length + 1 := by simp
        rw [← hl, List.drop_left]
      rw [hdrop]
      apply (tailMatchesPortSuffix_iff _).mpr
      refine ⟨d1, d2, pr, ?_, h1, h2, h3, h4, h5⟩
      rw [splitOnChar_append, splitOnChar_append,
          splitOnChar_of_not_mem (not_dash_mem_of_digits h2),
          splitOnChar_of_not_mem (not_dash_mem_of_digits h4),
          splitOnChar_of_not_mem hprd]
      simp

/-- C7: `isPortDevice deviceName containerName` is true iff `deviceName`
matches `^{containerName}-\d+-\d+-(tcp|udp)$` with the container name as
a literal front segment (the existential decomposition
`MatchesPortPattern`); in particular `isPortDevice "web-8080-80-tcp"
"web"` is true, while `isPortDevice "other-8080-80-tcp" "web"` and
`isPortDevice "web-8080-80-http" "web"` are both false. -/
theorem isPortDevice_filter_semantics :
    (∀ deviceName containerName : Str,
        isPortDevice deviceName containerName = true ↔
          MatchesPortPattern deviceName containerName) ∧
    isPortDevice (str "web-8080-80-tcp") (str "web") = true ∧
    isPortDevice (str "other-8080-80-tcp") (str "web") = false ∧
    isPortDevice (str "web-8080-80-http") (str "web") = false :=
  ⟨isPortDevice_iff, by decide, by decide, by decide⟩

/-! ### Claims C8, C10: parse totality and the no-skip invariant -/

theorem parsePortMapping_lt4 (deviceName : Str) (device : Device)
    (h : (splitOnChar '-' deviceName).length < 4) :
    parsePortMapping deviceName device =
      .error (str "invalid device name format: " ++ deviceName) := by
  unfold parsePortMapping
  rw [if_pos h]

theorem parsePortMapping_ge4 (deviceName : Str) (device : Device)
    (h : ¬ (splitOnChar '-' deviceName).length < 4) :
    parsePortMapping deviceName device =
      .ok { DeviceName := deviceName,
            Protocol := strToUpper ((splitOnChar '-' deviceName).getD
              ((splitOnChar '-' deviceName).length - 1) []),
            HostPort := (splitOnChar '-' deviceName).getD
              ((splitOnChar '-' deviceName).length - 3) [],
            ContainerPort := (splitOnChar '-' deviceName).getD
              ((splitOnChar '-' deviceName).length - 2) [],
            HostIP := parseIPField device.connect,
            ContainerIP := parseIPField device.listen } := by
  unfold parsePortMapping
  rw [if_neg h]

theorem parseIPField_default {field : Str}
    (h : field = [] ∨ (splitOnChar ':' field).length ≠ 3) :
    parseIPField field = str "0.0.0.0" := by
  unfold parseIPField
  rcases h with h | h
  · subst h; simp
  · by_cases hf : field = []
    · subst hf; simp
    · simp [hf, h]

/-- C8: totality of `parsePortMapping` over device attributes.  The
"invalid device name format" error occurs iff the device name splits on
`-` into fewer than 4 tokens; and with at least 4 tokens, a `connect`
(resp. `listen`) field that is empty or does not split on `:` into
exactly three segments makes the host IP (resp. container IP) default to
`0.0.0.0` while the parse still succeeds. -/
theorem parsePortMapping_totality (deviceName : Str) (device : Device) :
    (isErrE (parsePortMapping deviceName device) = true ↔
        (splitOnChar '-' deviceName).length < 4) ∧
    ((splitOnChar '-' deviceName).length < 4 →
        parsePortMapping deviceName device =
          .error (str "invalid device name format: " ++ deviceName)) ∧
    (4 ≤ (splitOnChar '-' deviceName).length →
      ((device.connect = [] ∨ (splitOnChar ':' device.connect).length ≠ 3) →
        ∃ m, parsePortMapping deviceName device = .ok m ∧ m.HostIP = str "0.0.0.0") ∧
      ((device.listen = [] ∨ (splitOnChar ':' device.listen).length ≠ 3) →
        ∃ m, parsePortMapping deviceName device = .ok m ∧
          m.ContainerIP = str "0.0.0.0")) := by
  by_cases h : (splitOnChar '-' deviceName).length < 4
  · refine ⟨?_, fun _ => parsePortMapping_lt4 deviceName device h, fun h4 => absurd h (by omega)⟩
    rw [parsePortMapping_lt4 deviceName device h]
    simp [isErrE, h]
  · refine ⟨?_, fun hlt => absurd hlt h, fun _ => ⟨?_, ?_⟩⟩
    · rw [parsePortMapping_ge4 deviceName device h]
      simp [isErrE, h]
    · intro hconn
      exact ⟨_, parsePortMapping_ge4 deviceName device h, parseIPField_default hconn⟩
    · intro hlis
      exact ⟨_, parsePortMapping_ge4 deviceName device h, parseIPField_default hlis⟩

/-- Witness for C8 at device name `web-8080-80-tcp` with empty `connect`
and malformed `listen`. -/
theorem parsePortMapping_totality_witness :
    (∃ m, parsePortMapping (str "web-8080-80-tcp") ⟨str "proxy", [], str "xyz"⟩ = .ok m ∧
       m.HostIP = str "0.0.0.0") ∧
    (∃ m, parsePortMapping (str "web-8080-80-tcp") ⟨str "proxy", [], str "xyz"⟩ = .ok m ∧
       m.ContainerIP = str "0.0.0.0") :=
  ⟨((parsePortMapping_totality (str "web-8080-80-tcp")
       ⟨str "proxy", [], str "xyz"⟩).2.2 (by decide)).1 (Or.inl rfl),
   ((parsePortMapping_totality (str "web-8080-80-tcp")
       ⟨str "proxy", [], str "xyz"⟩).2.2 (by decide)).2 (Or.inr (by decide))⟩

theorem length_ge4_of_isPortDevice {n c : Str} (h : isPortDevice n c = true) :
    4 ≤ (splitOnChar '-' n).length := by
  obtain ⟨d1, d2, pr, h1, h2, h3, h4, h5, hdec⟩ := (isPortDevice_iff n c).mp h
  have hprd : '-' ∉ pr := by rcases h5 with h' | h' <;> subst h' <;> decide
  have hsplit : splitOnChar '-' n = splitOnChar '-' c ++ [d1, d2, pr] := by
    rw [hdec]
    exact splitOnChar_encode c d1 d2 pr (not_dash_mem_of_digits h2)
      (not_dash_mem_of_digits h4) hprd
  have hc1 : 1 ≤ (splitOnChar '-' c).length :=
    List.length_pos.mpr (splitOnChar_ne_nil '-' c)
  rw [hsplit]
  simp
  omega

/-- C10: implicit invariant of the listing scan.  Every device name the
filter accepts splits on `-` into at least 4 tokens, so `parsePortMapping`
never fails on it, the skip branch is unreachable, and the scan yields
exactly one mapping per filtered device. -/
theorem listingScan_no_skip :
    (∀ (deviceName containerName : Str) (device : Device),
        isPortDevice deviceName containerName = true →
          4 ≤ (splitOnChar '-' deviceName).length ∧
          isErrE (parsePortMapping deviceName device) = false) ∧
    (∀ (devices : List (Str × Device)) (containerName : Str),
        (parsePortMappingsFromConfig devices containerName).length =
          (devices.filter (isMatchingDevice containerName)).length) := by
  constructor
  · intro n c d h
    have h4 := length_ge4_of_isPortDevice h
    refine ⟨h4, ?_⟩
    rw [parsePortMapping_ge4 n d (by omega)]
    rfl
  · intro devices c
    induction devices with
    | nil => rfl
    | cons nd rest ih =>
      by_cases h : isMatchingDevice c nd = true
      · have hport : isPortDevice nd.1 c = true := by
          unfold isMatchingDevice at h
          rw [Bool.and_eq_true] at h
          exact h.2
        have h4 := length_ge4_of_isPortDevice hport
        have hok := parsePortMapping_ge4 nd.1 nd.2 (by omega)
        simp [parsePortMappingsFromConfig, h, hok, List.filter_cons, ih]
      · simp [parsePortMappingsFromConfig, h, List.filter_cons, ih]

/-- Witness for C10 at the device `web-8080-80-tcp` of container `web`. -/
theorem listingScan_no_skip_witness :
    4 ≤ (splitOnChar '-' (str "web-8080-80-tcp")).length ∧
    isErrE (parsePortMapping (str "web-8080-80-tcp") ⟨str "proxy", [], []⟩) = false :=
  listingScan_no_skip.1 (str "web-8080-80-tcp") (str "web") ⟨str "proxy", [], []⟩
    (by decide)

/-! ### Claim C4: the listing report is neither sorted nor
iteration-order independent -/

/-- C4 counterexample: the scan preserves the device iteration order and
never sorts.  For the two-device configuration below the rows come out
with device names `web-9-9-udp` before `web-8-8-tcp` (descending under
every natural key: name, port, protocol), and reversing the iteration
order of the same device set changes the report string — with Go's
unspecified map iteration order, two invocations over the same
configuration bytes need not produce the identical report, and the rows
are not in a sorted order. -/
theorem listingReport_not_sorted_counterexample :
    ((parsePortMappingsFromConfig
        [(str "web-9-9-udp", ⟨str "proxy", [], []⟩),
         (str "web-8-8-tcp", ⟨str "proxy", [], []⟩)] (str "web")).map
        PortMapping.DeviceName = [str "web-9-9-udp", str "web-8-8-tcp"]) ∧
    formatPortMappings (parsePortMappingsFromConfig
        [(str "web-9-9-udp", ⟨str "proxy", [], []⟩),
         (str "web-8-8-tcp", ⟨str "proxy", [], []⟩)] (str "web")) ≠
      formatPortMappings (parsePortMappingsFromConfig
        [(str "web-8-8-tcp", ⟨str "proxy", [], []⟩),
         (str "web-9-9-udp", ⟨str "proxy", [], []⟩)] (str "web")) := by
  constructor
  · decide
  · set_option maxRecDepth 4000 in decide

/-- C4 (amended): the listing path is a deterministic function of the
configuration's device sequence in iteration order — the recovered
mappings are exactly one per matching device, in iteration order
(`filterMap` characterization), and the rendered report is the fixed
header and separator followed by one row per mapping in that same
order.  No sorting is applied, and stability across invocations holds
only relative to a fixed iteration order of the device map. -/
theorem listingReport_deterministic_in_iteration_order :
    (∀ (devices : List (Str × Device)) (containerName : Str),
        parsePortMappingsFromConfig devices containerName =
          devices.filterMap (fun nd =>
            if isMatchingDevice containerName nd then
              toOptionE (parsePortMapping nd.1 nd.2)
            else none)) ∧
    (∀ mappings : List PortMapping, mappings ≠ [] →
        formatPortMappings mappings =
          portTableHeader ++ portTableSeparator ++
            (mappings.map formatPortMappingRow).flatten) := by
  constructor
  · intro devices c
    induction devices with
    | nil => rfl
    | cons nd rest ih =>
      by_cases h : isMatchingDevice c nd = true
      · cases hp : parsePortMapping nd.1 nd.2 with
        | ok m => simp [parsePortMappingsFromConfig, h, hp, toOptionE, ih]
        | error e => simp [parsePortMappingsFromConfig, h, hp, toOptionE, ih]
      · simp [parsePortMappingsFromConfig, h, ih]
  · intro mappings h
    unfold formatPortMappings
    rw [if_neg (by simpa using h)]

/-- Witness for the amended C4 at a singleton mapping list and a
one-device configuration. -/
theorem listingReport_deterministic_witness :
    parsePortMappingsFromConfig [(str "web-8080-80-tcp", ⟨str "proxy", [], []⟩)]
        (str "web") =
      [(str "web-8080-80-tcp", (⟨str "proxy", [], []⟩ : Device))].filterMap (fun nd =>
        if isMatchingDevice (str "web") nd then
          toOptionE (parsePortMapping nd.1 nd.2)
        else none) ∧
    formatPortMappings
        [⟨str "web-8080-80-tcp", str "TCP", str "8080", str "80",
          str "0.0.0.0", str "0.0.0.0"⟩] =
      portTableHeader ++ portTableSeparator ++
        ([(⟨str "web-8080-80-tcp", str "TCP", str "8080", str "80",
            str "0.0.0.0", str "0.0.0.0"⟩ : PortMapping)].map formatPortMappingRow).flatten :=
  ⟨listingReport_deterministic_in_iteration_order.1
      [(str "web-8080-80-tcp", ⟨str "proxy", [], []⟩)] (str "web"),
   listingReport_deterministic_in_iteration_order.2
      [⟨str "web-8080-80-tcp", str "TCP", str "8080", str "80",
        str "0.0.0.0", str "0.0.0.0"⟩] (by decide)⟩

/-! ### Claim C9: formatter contract -/

/-- C9 counterexample: the claimed literal header
`PROTOCOL  HOST PORT  CONTAINER PORT  HOST IP  CONTAINER IP  DEVICE NAME`
(two spaces between every pair of labels) is NOT a prefix of a non-empty
report — the actual header pads `HOST IP` to its column width, putting
six spaces before `CONTAINER IP`. -/
theorem formatter_header_literal_counterexample :
    (str "PROTOCOL  HOST PORT  CONTAINER PORT  HOST IP  CONTAINER IP  DEVICE NAME").isPrefixOf
      (formatPortMappings
        [⟨str "web-8080-80-tcp", str "TCP", str "8080", str "80",
          str "0.0.0.0", str "0.0.0.0"⟩]) = false := by decide

/-- C9 (amended): `formatPortMappings []` is the empty string, and every
non-empty report begins with the actual fixed-width header line
`PROTOCOL  HOST PORT  CONTAINER PORT  HOST IP      CONTAINER IP  DEVICE NAME`
(labels padded to the column widths) followed by the separator row and
one row per input mapping. -/
theorem formatter_contract (mappings : List PortMapping) :
    formatPortMappings [] = [] ∧
    (mappings ≠ [] →
      formatPortMappings mappings =
        portTableHeader ++ portTableSeparator ++
          (mappings.map formatPortMappingRow).flatten ∧
      portTableHeader.isPrefixOf (formatPortMappings mappings) = true) := by
  refine ⟨rfl, fun h => ?_⟩
  have heq : formatPortMappings mappings =
      portTableHeader ++ portTableSeparator ++
        (mappings.map formatPortMappingRow).flatten := by
    unfold formatPortMappings
    rw [if_neg (by simpa using h)]
  refine ⟨heq, ?_⟩
  rw [heq, List.append_assoc]
  exact isPrefixOf_append_self _ _

/-- Witness for the amended C9 at a singleton mapping list. -/
theorem formatter_contract_witness :
    formatPortMappings [] = [] ∧
    formatPortMappings
        [⟨str "web-8080-80-tcp", str "TCP", str "8080", str "80",
          str "0.0.0.0", str "0.0.0.0"⟩] =
      portTableHeader ++ portTableSeparator ++
        ([(⟨str "web-8080-80-tcp", str "TCP", str "8080", str "80",
            str "0.0.0.0", str "0.0.0.0"⟩ : PortMapping)].map formatPortMappingRow).flatten ∧
    portTableHeader.isPrefixOf
      (formatPortMappings
        [⟨str "web-8080-80-tcp", str "TCP", str "8080", str "80",
          str "0.0.0.0", str "0.0.0.0"⟩]) = true :=
  ⟨(formatter_contract []).1,
   ((formatter_contract
      [⟨str "web-8080-80-tcp", str "TCP", str "8080", str "80",
        str "0.0.0.0", str "0.0.0.0"⟩]).2 (by decide)).1,
   ((formatter_contract
      [⟨str "web-8080-80-tcp", str "TCP", str "8080", str "80",
        str "0.0.0.0", str "0.0.0.0"⟩]).2 (by decide)).2⟩

/-! ### Lemmas about the orchestrator -/

theorem containsStr_spec (n hay : Str) : containsStr n hay = true ↔ n <:+: hay := by
  unfold containsStr
  rw [List.any_eq_true]
  constructor
  · rintro ⟨t, ht, hp⟩
    exact List.infix_iff_prefix_suffix.mpr
      ⟨t, List.isPrefixOf_iff_prefix.mp hp, (List.mem_tails t hay).mp ht⟩
  · intro hinf
    obtain ⟨t, hpre, hsuf⟩ := List.infix_iff_prefix_suffix.mp hinf
    exact ⟨t, (List.mem_tails t hay).mpr hsuf, List.isPrefixOf_iff_prefix.mpr hpre⟩

theorem atoi?_ne_nil {s : Str} {n : Int} (h : atoi? s = some n) : s ≠ [] := by
  intro he
  rw [he] at h
  simp [atoi?] at h

theorem createDevice_ok (m : ManagerOracle) (c h p proto : Str)
    (hrun : m.runLXC (creationCmd c h p proto) = none) :
    createDevice m c h p proto = (.ok (), [.runCmd (creationCmd c h p proto)]) := by
  simp only [createDevice, hrun]

theorem createDevice_fail (m : ManagerOracle) (c h p proto : Str) (e : Str)
    (hrun : m.runLXC (creationCmd c h p proto) = some e) :
    createDevice m c h p proto =
      (.error (str "failed to configure " ++ proto ++ str " port forwarding 0.0.0.0:" ++
         h ++ str " -> " ++ c ++ str ":" ++ p ++ str ": " ++ e),
       [.runCmd (creationCmd c h p proto)]) := by
  simp only [createDevice, hrun]

theorem createDevice_events (m : ManagerOracle) (c h p proto : Str) :
    (createDevice m c h p proto).2 = [Event.runCmd (creationCmd c h p proto)] := by
  cases hr : m.runLXC (creationCmd c h p proto) <;> simp [createDevice, hr]

theorem cfgProto_force_true (m : ManagerOracle) (c h p proto : Str) :
    configurePortForwardingForProtocol m c h p proto true =
      createDevice m c h p proto := rfl

theorem cfgProto_conflict (m : ManagerOracle) (c h p proto : Str) (hn : Int)
    (hh : atoi? h = some hn)
    (hav : IsPortAvailable m.portAvailable hn proto = false) :
    configurePortForwardingForProtocol m c h p proto false =
      (.error (formatPortConflictError h proto), [.probe hn proto]) := by
  unfold configurePortForwardingForProtocol
  rw [hh]
  simp [hav]

theorem cfgProto_available (m : ManagerOracle) (c h p proto : Str) (hn : Int)
    (hh : atoi? h = some hn)
    (hav : IsPortAvailable m.portAvailable hn proto = true) :
    configurePortForwardingForProtocol m c h p proto false =
      ((createDevice m c h p proto).1,
       .probe hn proto :: (createDevice m c h p proto).2) := by
  unfold configurePortForwardingForProtocol
  rw [hh]
  simp [hav]

theorem IsPortAvailable_eval (avail : Int → Str → Bool) (hn : Int) (proto : Str)
    (h1 : 1 ≤ hn) (h2 : hn ≤ 65535)
    (hproto : proto = str "tcp" ∨ proto = str "udp") :
    IsPortAvailable avail hn proto = avail hn proto := by
  unfold IsPortAvailable
  rw [if_neg (by omega)]
  rcases hproto with h | h <;> subst h
  · rw [show strToLower (str "tcp") = str "tcp" from by decide]
    simp
  · rw [show strToLower (str "udp") = str "udp" from by decide]
    rw [if_neg (by decide), if_pos rfl]

theorem validate_ok {c h p : Str} {hn pn : Int} (proto : Str) (hc : c ≠ [])
    (hh : atoi? h = some hn) (hh1 : 1 ≤ hn) (hh2 : hn ≤ 65535)
    (hp : atoi? p = some pn) (hp1 : 1 ≤ pn) (hp2 : pn ≤ 65535)
    (hproto : strToLower (if proto = [] then str "tcp" else proto) = str "tcp" ∨
              strToLower (if proto = [] then str "tcp" else proto) = str "udp" ∨
              strToLower (if proto = [] then str "tcp" else proto) = str "both") :
    validatePortForwardingArgs c h p proto = .ok () := by
  have hne : h ≠ [] := atoi?_ne_nil hh
  have pne : p ≠ [] := atoi?_ne_nil hp
  unfold validatePortForwardingArgs
  simp only [if_neg hc, if_neg hne, if_neg pne, hh, hp]
  rw [if_neg (show ¬(hn < 1 ∨ hn > 65535) by omega)]
  rw [if_neg (show ¬(pn < 1 ∨ pn > 65535) by omega)]
  rw [if_pos hproto]

theorem containsStr_self_append (n b : Str) : containsStr n (n ++ b) = true := by
  rw [containsStr_spec]
  exact ⟨[], b, by simp⟩

theorem containsStr_append_left (n x s : Str) (h : containsStr n s = true) :
    containsStr n (x ++ s) = true := by
  rw [containsStr_spec] at h ⊢
  obtain ⟨u, v, huv⟩ := h
  exact ⟨x ++ u, v, by rw [← huv]; simp⟩

/-! ### Claim C5: validation precedes all external effects -/

theorem validate_hostPort_range_error (c h p proto : Str) (hc : c ≠ []) (hn : Int)
    (hne : h ≠ []) (hh : atoi? h = some hn) (hr : hn < 1 ∨ hn > 65535) :
    validatePortForwardingArgs c h p proto =
      .error (str "invalid host port '" ++ h ++ str "': must be between 1 and 65535") := by
  unfold validatePortForwardingArgs
  simp only [if_neg hc, if_neg hne, hh]
  rw [if_pos hr]

theorem validate_hostPort_nan_error (c h p proto : Str) (hc : c ≠ [])
    (hne : h ≠ []) (hh : atoi? h = none) :
    validatePortForwardingArgs c h p proto =
      .error (str "invalid host port '" ++ h ++ str "': must be a number") := by
  unfold validatePortForwardingArgs
  simp only [if_neg hc, if_neg hne, hh]

theorem configure_validation_error (m : ManagerOracle) (c h p proto : Str) (force : Bool)
    (e : Str) (hval : validatePortForwardingArgs c h p proto = .error e) :
    configurePortForwarding m c h p proto force = (.error e, []) := by
  simp only [configurePortForwarding, hval]

/-- C5 counterexample to the claim as stated: for the non-numeric host
port `abc`, the validation error names the exact value but says only
"must be a number" — it does not name the valid range 1–65535 (the digits
`65535` appear nowhere in the message).  The zero-external-calls half of
the claim does hold (the event log is empty). -/
theorem validation_message_counterexample :
    configurePortForwarding ⟨fun _ => true, fun _ _ => true, fun _ => none⟩
      (str "web") (str "abc") (str "80") (str "tcp") false =
      (.error (str "invalid host port 'abc': must be a number"), []) ∧
    containsStr (str "65535") (str "invalid host port 'abc': must be a number") = false := by
  constructor
  · rfl
  · decide

/-- C5 (amended): for every request with a non-empty container name whose
host port is `0`, `65536` or a non-numeric string, `configurePortForwarding`
returns the validation error naming the exact invalid value — with the
valid range `1 and 65535` for the out-of-range values, and with "must be
a number" (no range) for non-numeric values — and performs zero external
calls: no container-existence check, no port probe, no command execution
(the event log is empty). -/
theorem validation_precedes_effects (m : ManagerOracle) (c h p proto : Str)
    (force : Bool) (hc : c ≠ []) :
    ((h = str "0" ∨ h = str "65536") →
      configurePortForwarding m c h p proto force =
        (.error (str "invalid host port '" ++ h ++
           str "': must be between 1 and 65535"), [])) ∧
    ((h ≠ [] ∧ atoi? h = none) →
      configurePortForwarding m c h p proto force =
        (.error (str "invalid host port '" ++ h ++ str "': must be a number"), [])) := by
  constructor
  · rintro (rfl | rfl)
    · exact configure_validation_error m _ _ p proto force _
        (validate_hostPort_range_error _ _ p proto hc 0 (by decide) (by decide)
          (Or.inl (by decide)))
    · exact configure_validation_error m _ _ p proto force _
        (validate_hostPort_range_error _ _ p proto hc 65536 (by decide) (by decide)
          (Or.inr (by decide)))
  · rintro ⟨hne, hnan⟩
    exact configure_validation_error m _ _ p proto force _
      (validate_hostPort_nan_error _ _ p proto hc hne hnan)

/-- Witness for the amended C5 at host port `0` and at host port `xyz`. -/
theorem validation_precedes_effects_witness :
    configurePortForwarding ⟨fun _ => true, fun _ _ => true, fun _ => none⟩
      (str "web") (str "0") (str "80") (str "tcp") false =
      (.error (str "invalid host port '" ++ str "0" ++
         str "': must be between 1 and 65535"), []) ∧
    configurePortForwarding ⟨fun _ => true, fun _ _ => true, fun _ => none⟩
      (str "web") (str "xyz") (str "80") (str "udp") true =
      (.error (str "invalid host port '" ++ str "xyz" ++ str "': must be a number"), []) :=
  ⟨(validation_precedes_effects ⟨fun _ => true, fun _ _ => true, fun _ => none⟩
      (str "web") (str "0") (str "80") (str "tcp") false (by decide)).1 (Or.inl rfl),
   (validation_precedes_effects ⟨fun _ => true, fun _ _ => true, fun _ => none⟩
      (str "web") (str "xyz") (str "80") (str "udp") true (by decide)).2
     ⟨by decide, by decide⟩⟩

/-! ### Claim C6: force bypass and the structured conflict error -/

theorem conflict_error_contains (h proto : Str) :
    containsStr h (formatPortConflictError h proto) = true ∧
    containsStr proto (formatPortConflictError h proto) = true ∧
    containsStr (str "Use a different host port") (formatPortConflictError h proto) = true ∧
    containsStr (str "Check what's using the port") (formatPortConflictError h proto) = true ∧
    containsStr (str "Force creation anyway") (formatPortConflictError h proto) = true := by
  refine ⟨?_, ?_, ?_, ?_, ?_⟩
  · simp only [formatPortConflictError, List.append_assoc]
    apply containsStr_append_left
    exact containsStr_self_append _ _
  · simp only [formatPortConflictError, List.append_assoc]
    apply containsStr_append_left
    apply containsStr_append_left
    apply containsStr_append_left
    exact containsStr_self_append _ _
  · simp only [formatPortConflictError, List.append_assoc]
    rw [show (str ") is already in use\n\nSuggestions:\n  • Use a different host port: lxc-go-cli port add <container> <other-port> <container-port> ") = (str ") is already in use\n\nSuggestions:\n  • ") ++ ((str "Use a different host port") ++ (str ": lxc-go-cli port add <container> <other-port> <container-port> ")) from by decide]
    simp only [List.append_assoc]
    repeat (first | exact containsStr_self_append _ _ | apply containsStr_append_left)
  · simp only [formatPortConflictError, List.append_assoc]
    rw [show (str "\n  • Check what's using the port: ss -tuln | grep :") = (str "\n  • ") ++ ((str "Check what's using the port") ++ (str ": ss -tuln | grep :")) from by decide]
    simp only [List.append_assoc]
    repeat (first | exact containsStr_self_append _ _ | apply containsStr_append_left)
  · simp only [formatPortConflictError, List.append_assoc]
    rw [show (str "\n  • Force creation anyway: lxc-go-cli port add <container> ") = (str "\n  • ") ++ ((str "Force creation anyway") ++ (str ": lxc-go-cli port add <container> ")) from by decide]
    simp only [List.append_assoc]
    repeat (first | exact containsStr_self_append _ _ | apply containsStr_append_left)

/-- C6: for a valid single-protocol creation, `force = true` skips the
Port Prober entirely — the event log of the leg is exactly the one
device-creation command, with no probe event; `force = false` with the
prober reporting the host port unavailable returns exactly the fixed
conflict template `formatPortConflictError hostPort protocol` — which
names the exact host port and protocol and carries the three remediation
suggestions — and the leg's event log is the probe alone: no
device-creation command is issued. -/
theorem forceFlag_and_conflictError (m : ManagerOracle) (c h p proto : Str) (hn : Int)
    (hh : atoi? h = some hn) (hh1 : 1 ≤ hn) (hh2 : hn ≤ 65535)
    (hproto : proto = str "tcp" ∨ proto = str "udp") :
    ((configurePortForwardingForProtocol m c h p proto true).2 =
        [Event.runCmd (creationCmd c h p proto)]) ∧
    (m.portAvailable hn proto = false →
      configurePortForwardingForProtocol m c h p proto false =
        (.error (formatPortConflictError h proto), [Event.probe hn proto]) ∧
      containsStr h (formatPortConflictError h proto) = true ∧
      containsStr proto (formatPortConflictError h proto) = true ∧
      containsStr (str "Use a different host port")
        (formatPortConflictError h proto) = true ∧
      containsStr (str "Check what's using the port")
        (formatPortConflictError h proto) = true ∧
      containsStr (str "Force creation anyway")
        (formatPortConflictError h proto) = true) := by
  constructor
  · rw [cfgProto_force_true]
    exact createDevice_events m c h p proto
  · intro hun
    have hav : IsPortAvailable m.portAvailable hn proto = false := by
      rw [IsPortAvailable_eval m.portAvailable hn proto hh1 hh2 hproto]
      exact hun
    obtain ⟨h1, h2, h3, h4, h5⟩ := conflict_error_contains h proto
    exact ⟨cfgProto_conflict m c h p proto hn hh hav, h1, h2, h3, h4, h5⟩

/-- Witness for C6 at host port 8080 / container port 80, protocol tcp,
with a prober that reports the port taken. -/
theorem forceFlag_and_conflictError_witness :
    ((configurePortForwardingForProtocol ⟨fun _ => true, fun _ _ => false, fun _ => none⟩
        (str "web") (str "8080") (str "80") (str "tcp") true).2 =
      [Event.runCmd (creationCmd (str "web") (str "8080") (str "80") (str "tcp"))]) ∧
    (configurePortForwardingForProtocol ⟨fun _ => true, fun _ _ => false, fun _ => none⟩
        (str "web") (str "8080") (str "80") (str "tcp") false =
      (.error (formatPortConflictError (str "8080") (str "tcp")),
       [Event.probe 8080 (str "tcp")]) ∧
     containsStr (str "8080") (formatPortConflictError (str "8080") (str "tcp")) = true ∧
     containsStr (str "tcp") (formatPortConflictError (str "8080") (str "tcp")) = true ∧
     containsStr (str "Use a different host port")
       (formatPortConflictError (str "8080") (str "tcp")) = true ∧
     containsStr (str "Check what's using the port")
       (formatPortConflictError (str "8080") (str "tcp")) = true ∧
     containsStr (str "Force creation anyway")
       (formatPortConflictError (str "8080") (str "tcp")) = true) :=
  ⟨(forceFlag_and_conflictError ⟨fun _ => true, fun _ _ => false, fun _ => none⟩
      (str "web") (str "8080") (str "80") (str "tcp") 8080
      (by decide) (by decide) (by decide) (Or.inl rfl)).1,
   (forceFlag_and_conflictError ⟨fun _ => true, fun _ _ => false, fun _ => none⟩
      (str "web") (str "8080") (str "80") (str "tcp") 8080
      (by decide) (by decide) (by decide) (Or.inl rfl)).2 rfl⟩

/-! ### Claims C2, C3: `both` dispatch -/

theorem configure_both_unfold (m : ManagerOracle) (c h p : Str) (force : Bool)
    (hval : validatePortForwardingArgs c h p (str "both") = .ok ())
    (hex : m.containerExists c = true) :
    configurePortForwarding m c h p (str "both") force =
      (match (configurePortForwardingForProtocol m c h p (str "tcp") force).1 with
       | .error e =>
         (.error e,
          .existsCheck c ::
            (configurePortForwardingForProtocol m c h p (str "tcp") force).2)
       | .ok _ =>
         ((configurePortForwardingForProtocol m c h p (str "udp") force).1,
          .existsCheck c ::
            ((configurePortForwardingForProtocol m c h p (str "tcp") force).2 ++
             (configurePortForwardingForProtocol m c h p (str "udp") force).2))) := by
  simp only [configurePortForwarding, hval, hex, if_true]
  rw [show (if (str "both") = ([] : Str) then str "tcp" else str "both") = str "both"
      from by decide]
  rw [show strToLower (str "both") = str "both" from by decide]
  rw [if_neg (by decide), if_neg (by decide), if_pos rfl]
  cases (configurePortForwardingForProtocol m c h p (str "tcp") force).1 <;> rfl

theorem runEvents_cons_exists (c : Str) (l : List Event) :
    runEvents (Event.existsCheck c :: l) = runEvents l := by
  simp [runEvents]

theorem runEvents_cons_probe (n : Int) (proto : Str) (l : List Event) :
    runEvents (Event.probe n proto :: l) = runEvents l := by
  simp [runEvents]

theorem runEvents_cons_run (cmd : List Str) (l : List Event) :
    runEvents (Event.runCmd cmd :: l) = Event.runCmd cmd :: runEvents l := by
  simp [runEvents]

theorem runEvents_append (a b : List Event) :
    runEvents (a ++ b) = runEvents a ++ runEvents b := by
  simp [runEvents, List.filter_append]

theorem cfgProto_ok_elim (m : ManagerOracle) (c h p proto : Str) (force : Bool)
    (hn : Int) (hh : atoi? h = some hn)
    (hok : (configurePortForwardingForProtocol m c h p proto force).1 = .ok ()) :
    m.runLXC (creationCmd c h p proto) = none ∧
    runEvents (configurePortForwardingForProtocol m c h p proto force).2 =
      [Event.runCmd (creationCmd c h p proto)] := by
  cases force with
  | true =>
    rw [cfgProto_force_true] at hok ⊢
    cases hr : m.runLXC (creationCmd c h p proto) with
    | none => exact ⟨rfl, by rw [createDevice_ok m c h p proto hr]; simp [runEvents]⟩
    | some e => rw [createDevice_fail m c h p proto e hr] at hok; cases hok
  | false =>
    cases hav : IsPortAvailable m.portAvailable hn proto with
    | true =>
      rw [cfgProto_available m c h p proto hn hh hav] at hok ⊢
      cases hr : m.runLXC (creationCmd c h p proto) with
      | none =>
        refine ⟨rfl, ?_⟩
        rw [createDevice_ok m c h p proto hr]
        simp [runEvents]
      | some e =>
        rw [createDevice_fail m c h p proto e hr] at hok
        cases hok
    | false =>
      rw [cfgProto_conflict m c h p proto hn hh hav] at hok
      cases hok

theorem createDevice_error_mentions (m : ManagerOracle) (c h p proto e : Str)
    (herr : (createDevice m c h p proto).1 = .error e) :
    containsStr proto e = true := by
  cases hr : m.runLXC (creationCmd c h p proto) with
  | none => rw [createDevice_ok m c h p proto hr] at herr; cases herr
  | some e0 =>
    rw [createDevice_fail m c h p proto e0 hr] at herr
    injection herr with he
    subst he
    simp only [List.append_assoc]
    apply containsStr_append_left
    exact containsStr_self_append _ _

theorem cfgProto_err_elim (m : ManagerOracle) (c h p proto : Str) (force : Bool)
    (hn : Int) (e : Str) (hh : atoi? h = some hn)
    (herr : (configurePortForwardingForProtocol m c h p proto force).1 = .error e) :
    containsStr proto e = true ∨ e = formatPortConflictError h proto := by
  cases force with
  | true =>
    rw [cfgProto_force_true] at herr
    exact Or.inl (createDevice_error_mentions m c h p proto e herr)
  | false =>
    cases hav : IsPortAvailable m.portAvailable hn proto with
    | true =>
      rw [cfgProto_available m c h p proto hn hh hav] at herr
      exact Or.inl (createDevice_error_mentions m c h p proto e herr)
    | false =>
      rw [cfgProto_conflict m c h p proto hn hh hav] at herr
      injection herr with he
      exact Or.inr he.symm

theorem cfgProto_err_events (m : ManagerOracle) (c h p proto : Str) (force : Bool)
    (hn : Int) (e : Str) (hh : atoi? h = some hn)
    (herr : (configurePortForwardingForProtocol m c h p proto force).1 = .error e) :
    runEvents (configurePortForwardingForProtocol m c h p proto force).2 = [] ∨
    (runEvents (configurePortForwardingForProtocol m c h p proto force).2 =
       [Event.runCmd (creationCmd c h p proto)] ∧
     m.runLXC (creationCmd c h p proto) ≠ none) := by
  cases force with
  | true =>
    rw [cfgProto_force_true] at herr ⊢
    cases hr : m.runLXC (creationCmd c h p proto) with
    | none => rw [createDevice_ok m c h p proto hr] at herr; cases herr
    | some e0 =>
      refine Or.inr ⟨?_, by simp [hr]⟩
      rw [createDevice_fail m c h p proto e0 hr]
      simp [runEvents]
  | false =>
    cases hav : IsPortAvailable m.portAvailable hn proto with
    | true =>
      rw [cfgProto_available m c h p proto hn hh hav] at herr ⊢
      cases hr : m.runLXC (creationCmd c h p proto) with
      | none => rw [createDevice_ok m c h p proto hr] at herr; cases herr
      | some e0 =>
        refine Or.inr ⟨?_, by simp [hr]⟩
        rw [createDevice_fail m c h p proto e0 hr]
        simp [runEvents]
    | false =>
      rw [cfgProto_conflict m c h p proto hn hh hav]
      exact Or.inl (by simp [runEvents])

theorem creationCmd_proto_ne (c h p : Str) :
    creationCmd c h p (str "tcp") ≠ creationCmd c h p (str "udp") := by
  intro he
  have h7 := congrArg (fun l => (l.getD 7 []).getD 8 ' ') he
  simp only [creationCmd, List.getD_cons_succ, List.getD_cons_zero] at h7
  rw [show (8 : Nat) = (str "connect=").length + 0 from by decide] at h7
  simp only [getD_append_length_add] at h7
  rw [List.getD_append (str "tcp" ++ str ":0.0.0.0:") h ' ' 0 (by decide),
      List.getD_append (str "udp" ++ str ":0.0.0.0:") h ' ' 0 (by decide)] at h7
  exact absurd h7 (by decide)

theorem configure_both_tcpError (m : ManagerOracle) (c h p : Str) (force : Bool)
    (hval : validatePortForwardingArgs c h p (str "both") = .ok ())
    (hex : m.containerExists c = true) (e : Str)
    (herr : (configurePortForwardingForProtocol m c h p (str "tcp") force).1 = .error e) :
    configurePortForwarding m c h p (str "both") force =
      (.error e,
       .existsCheck c :: (configurePortForwardingForProtocol m c h p (str "tcp") force).2) := by
  rw [configure_both_unfold m c h p force hval hex]
  rw [herr]

theorem configure_both_tcpOk (m : ManagerOracle) (c h p : Str) (force : Bool)
    (hval : validatePortForwardingArgs c h p (str "both") = .ok ())
    (hex : m.containerExists c = true)
    (hok : (configurePortForwardingForProtocol m c h p (str "tcp") force).1 = .ok ()) :
    configurePortForwarding m c h p (str "both") force =
      ((configurePortForwardingForProtocol m c h p (str "udp") force).1,
       .existsCheck c ::
         ((configurePortForwardingForProtocol m c h p (str "tcp") force).2 ++
          (configurePortForwardingForProtocol m c h p (str "udp") force).2)) := by
  rw [configure_both_unfold m c h p force hval hex]
  rw [hok]

theorem runCmd_mem_runEvents {x : List Str} {l : List Event}
    (h : Event.runCmd x ∈ l) : Event.runCmd x ∈ runEvents l :=
  List.mem_filter.mpr ⟨h, rfl⟩

/-- C3: order and shape of `both` creation.  For a valid `both` request
on an existing container where both legs' creation commands succeed and
the host port probes available for both protocols (or `force` is set),
the call succeeds, exactly two external creation commands are issued —
TCP first, then UDP — and each leg's command carries
`connect={protocol}:0.0.0.0:{hostPort}` and
`listen={protocol}:0.0.0.0:{containerPort}` with its own protocol
prefix. -/
theorem both_order_and_shape (m : ManagerOracle) (c h p : Str) (hn pn : Int)
    (force : Bool) (hc : c ≠ [])
    (hh : atoi? h = some hn) (hh1 : 1 ≤ hn) (hh2 : hn ≤ 65535)
    (hpp : atoi? p = some pn) (hp1 : 1 ≤ pn) (hp2 : pn ≤ 65535)
    (hex : m.containerExists c = true)
    (havail : force = true ∨ (m.portAvailable hn (str "tcp") = true ∧
                              m.portAvailable hn (str "udp") = true))
    (hrunT : m.runLXC (creationCmd c h p (str "tcp")) = none)
    (hrunU : m.runLXC (creationCmd c h p (str "udp")) = none) :
    (configurePortForwarding m c h p (str "both") force).1 = .ok () ∧
    runEvents (configurePortForwarding m c h p (str "both") force).2 =
      [Event.runCmd (creationCmd c h p (str "tcp")),
       Event.runCmd (creationCmd c h p (str "udp"))] ∧
    (∀ proto : Str, creationCmd c h p proto =
      [str "lxc", str "config", str "device", str "add", c,
       encodeDeviceName c h p proto, str "proxy",
       str "connect=" ++ (proto ++ str ":0.0.0.0:" ++ h),
       str "listen=" ++ (proto ++ str ":0.0.0.0:" ++ p)]) := by
  have hval := validate_ok (str "both") hc hh hh1 hh2 hpp hp1 hp2
    (Or.inr (Or.inr (by decide)))
  have hTok : (configurePortForwardingForProtocol m c h p (str "tcp") force).1 = .ok () := by
    cases force with
    | true => rw [cfgProto_force_true, createDevice_ok m c h p (str "tcp") hrunT]
    | false =>
      rcases havail with hf | ⟨haT, -⟩
      · exact absurd hf (by decide)
      · have hav : IsPortAvailable m.portAvailable hn (str "tcp") = true := by
          rw [IsPortAvailable_eval m.portAvailable hn (str "tcp") hh1 hh2 (Or.inl rfl)]
          exact haT
        rw [cfgProto_available m c h p (str "tcp") hn hh hav,
            createDevice_ok m c h p (str "tcp") hrunT]
  have hUok : (configurePortForwardingForProtocol m c h p (str "udp") force).1 = .ok () := by
    cases force with
    | true => rw [cfgProto_force_true, createDevice_ok m c h p (str "udp") hrunU]
    | false =>
      rcases havail with hf | ⟨-, haU⟩
      · exact absurd hf (by decide)
      · have hav : IsPortAvailable m.portAvailable hn (str "udp") = true := by
          rw [IsPortAvailable_eval m.portAvailable hn (str "udp") hh1 hh2 (Or.inr rfl)]
          exact haU
        rw [cfgProto_available m c h p (str "udp") hn hh hav,
            createDevice_ok m c h p (str "udp") hrunU]
  obtain ⟨-, hTev⟩ := cfgProto_ok_elim m c h p (str "tcp") force hn hh hTok
  obtain ⟨-, hUev⟩ := cfgProto_ok_elim m c h p (str "udp") force hn hh hUok
  have hW := configure_both_tcpOk m c h p force hval hex hTok
  refine ⟨?_, ?_, fun proto => rfl⟩
  · rw [hW]
    exact hUok
  · rw [hW]
    show runEvents (Event.existsCheck c :: _) = _
    rw [runEvents_cons_exists, runEvents_append, hTev, hUev]
    rfl

/-- Witness for C3: container `web`, 8080 → 80, everything available,
both runs succeed. -/
theorem both_order_and_shape_witness :
    (configurePortForwarding ⟨fun _ => true, fun _ _ => true, fun _ => none⟩
        (str "web") (str "8080") (str "80") (str "both") false).1 = .ok () ∧
    runEvents (configurePortForwarding ⟨fun _ => true, fun _ _ => true, fun _ => none⟩
        (str "web") (str "8080") (str "80") (str "both") false).2 =
      [Event.runCmd (creationCmd (str "web") (str "8080") (str "80") (str "tcp")),
       Event.runCmd (creationCmd (str "web") (str "8080") (str "80") (str "udp"))] ∧
    (∀ proto : Str, creationCmd (str "web") (str "8080") (str "80") proto =
      [str "lxc", str "config", str "device", str "add", str "web",
       encodeDeviceName (str "web") (str "8080") (str "80") proto, str "proxy",
       str "connect=" ++ (proto ++ str ":0.0.0.0:" ++ str "8080"),
       str "listen=" ++ (proto ++ str ":0.0.0.0:" ++ str "80")]) :=
  both_order_and_shape ⟨fun _ => true, fun _ _ => true, fun _ => none⟩
    (str "web") (str "8080") (str "80") 8080 80 false (by decide)
    (by decide) (by decide) (by decide) (by decide) (by decide) (by decide)
    rfl (Or.inr ⟨rfl, rfl⟩) rfl rfl

/-- C2 counterexample to the claim as stated: with container `web`
existing, every port available, and an executor that fails exactly on
the UDP creation command, the `both` request 8080 → 80 returns the
UDP-mentioning error — but TWO creation commands were issued (the TCP
one, which succeeded, and the UDP one, which was attempted and failed),
not exactly one as the claim states. -/
theorem both_partialFailure_counterexample :
    (configurePortForwarding
        ⟨fun _ => true, fun _ _ => true,
         fun cmd => if cmd = creationCmd (str "web") (str "8080") (str "80") (str "udp")
                    then some (str "boom") else none⟩
        (str "web") (str "8080") (str "80") (str "both") false).1 =
      .error (str "failed to configure udp port forwarding 0.0.0.0:8080 -> web:80: boom") ∧
    runEvents (configurePortForwarding
        ⟨fun _ => true, fun _ _ => true,
         fun cmd => if cmd = creationCmd (str "web") (str "8080") (str "80") (str "udp")
                    then some (str "boom") else none⟩
        (str "web") (str "8080") (str "80") (str "both") false).2 =
      [Event.runCmd (creationCmd (str "web") (str "8080") (str "80") (str "tcp")),
       Event.runCmd (creationCmd (str "web") (str "8080") (str "80") (str "udp"))] ∧
    (runEvents (configurePortForwarding
        ⟨fun _ => true, fun _ _ => true,
         fun cmd => if cmd = creationCmd (str "web") (str "8080") (str "80") (str "udp")
                    then some (str "boom") else none⟩
        (str "web") (str "8080") (str "80") (str "both") false).2).length = 2 := by
  refine ⟨?_, ?_, ?_⟩ <;> rfl

/-- C2 (amended): partial-failure semantics of a `both` request on a
valid input and an existing container.  (a) If the TCP leg fails, the
whole call fails with the TCP leg's error and no UDP creation command is
ever attempted — the only command possibly issued is the TCP creation
command.  (b) If the TCP leg succeeds and the UDP leg fails, the call
fails with an error that mentions `udp`, the TCP creation command was
issued and succeeded, and the commands issued are either the TCP one
alone (UDP leg stopped at the availability probe) or the TCP one
followed by the UDP creation command which was attempted and failed;
no rollback or removal command is ever issued — every issued command is
one of the two creation commands. -/
theorem both_partialFailure (m : ManagerOracle) (c h p : Str) (hn pn : Int)
    (force : Bool) (hc : c ≠ [])
    (hh : atoi? h = some hn) (hh1 : 1 ≤ hn) (hh2 : hn ≤ 65535)
    (hpp : atoi? p = some pn) (hp1 : 1 ≤ pn) (hp2 : pn ≤ 65535)
    (hex : m.containerExists c = true) :
    (∀ e, (configurePortForwardingForProtocol m c h p (str "tcp") force).1 = .error e →
      (configurePortForwarding m c h p (str "both") force).1 = .error e ∧
      (runEvents (configurePortForwarding m c h p (str "both") force).2 = [] ∨
       runEvents (configurePortForwarding m c h p (str "both") force).2 =
         [Event.runCmd (creationCmd c h p (str "tcp"))]) ∧
      Event.runCmd (creationCmd c h p (str "udp")) ∉
        (configurePortForwarding m c h p (str "both") force).2) ∧
    (∀ e, (configurePortForwardingForProtocol m c h p (str "tcp") force).1 = .ok () →
      (configurePortForwardingForProtocol m c h p (str "udp") force).1 = .error e →
      (configurePortForwarding m c h p (str "both") force).1 = .error e ∧
      containsStr (str "udp") e = true ∧
      m.runLXC (creationCmd c h p (str "tcp")) = none ∧
      (runEvents (configurePortForwarding m c h p (str "both") force).2 =
         [Event.runCmd (creationCmd c h p (str "tcp"))] ∨
       (runEvents (configurePortForwarding m c h p (str "both") force).2 =
          [Event.runCmd (creationCmd c h p (str "tcp")),
           Event.runCmd (creationCmd c h p (str "udp"))] ∧
        m.runLXC (creationCmd c h p (str "udp")) ≠ none))) := by
  have hval := validate_ok (str "both") hc hh hh1 hh2 hpp hp1 hp2
    (Or.inr (Or.inr (by decide)))
  constructor
  · intro e herr
    have hW := configure_both_tcpError m c h p force hval hex e herr
    have hTev := cfgProto_err_events m c h p (str "tcp") force hn e hh herr
    refine ⟨by rw [hW], ?_, ?_⟩
    · rw [hW]
      show runEvents (Event.existsCheck c :: _) = [] ∨
        runEvents (Event.existsCheck c :: _) = _
      rw [runEvents_cons_exists]
      rcases hTev with h1 | ⟨h1, -⟩
      · exact Or.inl h1
      · exact Or.inr h1
    · rw [hW]
      intro hmem
      have hmem2 : Event.runCmd (creationCmd c h p (str "udp")) ∈
          runEvents (configurePortForwardingForProtocol m c h p (str "tcp") force).2 := by
        rcases List.mem_cons.mp hmem with hx | hx
        · cases hx
        · exact runCmd_mem_runEvents hx
      rcases hTev with h1 | ⟨h1, -⟩ <;> rw [h1] at hmem2
      · cases hmem2
      · rcases List.mem_cons.mp hmem2 with hx | hx
        · injection hx with hx
          exact creationCmd_proto_ne c h p hx.symm
        · cases hx
  · intro e hok herr
    have hW := configure_both_tcpOk m c h p force hval hex hok
    obtain ⟨hT, hTev⟩ := cfgProto_ok_elim m c h p (str "tcp") force hn hh hok
    have hUev := cfgProto_err_events m c h p (str "udp") force hn e hh herr
    have hUmen : containsStr (str "udp") e = true := by
      rcases cfgProto_err_elim m c h p (str "udp") force hn e hh herr with h1 | h1
      · exact h1
      · rw [h1]
        exact (conflict_error_contains h (str "udp")).2.1
    refine ⟨by rw [hW]; exact herr, hUmen, hT, ?_⟩
    rw [hW]
    show runEvents (Event.existsCheck c :: _) = _ ∨
      (runEvents (Event.existsCheck c :: _) = _ ∧ _)
    rw [runEvents_cons_exists, runEvents_append, hTev]
    rcases hUev with h1 | ⟨h1, h2⟩
    · rw [h1]
      exact Or.inl rfl
    · rw [h1]
      exact Or.inr ⟨rfl, h2⟩

/-- Witness for the amended C2 at the counterexample oracle (part (b):
TCP leg succeeds, UDP run fails). -/
theorem both_partialFailure_witness :
    (configurePortForwarding
        ⟨fun _ => true, fun _ _ => true,
         fun cmd => if cmd = creationCmd (str "web") (str "8080") (str "80") (str "udp")
                    then some (str "boom") else none⟩
        (str "web") (str "8080") (str "80") (str "both") false).1 =
      .error (str "failed to configure udp port forwarding 0.0.0.0:8080 -> web:80: boom") ∧
    containsStr (str "udp")
      (str "failed to configure udp port forwarding 0.0.0.0:8080 -> web:80: boom") = true :=
  have hres := (both_partialFailure
      ⟨fun _ => true, fun _ _ => true,
       fun cmd => if cmd = creationCmd (str "web") (str "8080") (str "80") (str "udp")
                  then some (str "boom") else none⟩
      (str "web") (str "8080") (str "80") 8080 80 false (by decide)
      (by decide) (by decide) (by decide) (by decide) (by decide) (by decide) rfl).2
    (str "failed to configure udp port forwarding 0.0.0.0:8080 -> web:80: boom")
    rfl rfl
  ⟨hres.1, hres.2.1⟩
